import Mathlib

/-!
Shallow embedding of the letruxux/youtube-chat package.

The data model follows `defs.ts`; message parsing follows `parser.ts`
(`parseAction`) and the duplicated legacy inline parser in `youtube.ts`;
snapshot filtering follows `validateMessage` and the post-parse tail of
`fetchChatMessages` in `youtube.ts`; the polling listener follows
`ChatListener` in `listener.ts`.

Conventions used throughout: JS strings are `String`, and an absent or
`undefined` optional string field is modelled as `""`, matching the
truthiness checks the source performs on those fields; a JS exception is
`Except Unit` or an explicit abort flag; `setTimeout` handles are natural
numbers; millisecond intervals are rationals — the only arithmetic the
source performs on them is `x * 1.5` and `Math.min`, which IEEE doubles
compute exactly on every value reachable from the integer-valued
configurations that the claims involve, so `ℚ` mirrors the JS semantics
on those inputs.
-/

namespace YoutubeChat

/-- A thumbnail image (`defs.ts`, `Thumbnail`). -/
structure Thumbnail where
  width : Nat
  height : Nat
  url : String
  deriving DecidableEq, Repr

/-- An emoji run of a chat message (`message.runs[i].emoji` as read by the
parsers). `label` models `image?.accessibility?.accessibilityData?.label`,
with `""` standing for an absent label (the source only tests it for
truthiness). -/
structure Emoji where
  label : String
  shortcuts : List String
  thumbnails : List Thumbnail
  isCustomEmoji : Bool
  emojiId : String
  deriving DecidableEq, Repr

/-- One element of `renderer.message.runs`: a plain text run or an emoji
run. A text run whose `text` is `""` is falsy in the source, so it behaves
exactly like an unknown run shape: it contributes `""` to the message text
and makes the `textParts` mapping dereference `run.emoji.image` and throw. -/
inductive Run
  | text (s : String)
  | emoji (e : Emoji)
  deriving DecidableEq, Repr

/-- A raw author badge node (`renderer.authorBadges[i]`), narrowed to the
two leaves both parsers read: the accessibility label and `icon.iconType`. -/
structure RawBadge where
  label : String
  iconType : String
  deriving DecidableEq, Repr

/-- The fields of `liveChatTextMessageRenderer` that the parsers read.
`authorBadges := none` models the field being absent from the JSON, which
is the input on which the two parser variants diverge. -/
structure Renderer where
  runs : List Run
  authorPhotoThumbnails : List Thumbnail
  authorNameSimpleText : String
  id : String
  authorBadges : Option (List RawBadge)
  authorExternalChannelId : String
  timestampUsec : Nat
  deriving DecidableEq, Repr

/-- One entry of `data.contents.liveChatRenderer.actions`: either a shape
whose field accesses throw inside the per-action `try` (`malformed`), or a
well-shaped chat item. -/
inductive RawAction
  | malformed
  | item (r : Renderer)
  deriving DecidableEq, Repr

/-- A parsed badge as both parsers build it: `label` from the accessibility
label, `text` from `icon.iconType`. -/
structure Badge where
  label : String
  text : String
  deriving DecidableEq, Repr

/-- A message text part (`defs.ts`, `TextPart`): a plain text part or an
emoji part. -/
inductive TextPart
  | text (s : String)
  | emoji (url : String) (alt : String) (isCustomEmoji : Bool) (emojiText : String)
  deriving DecidableEq, Repr

/-- A chat message (`defs.ts`, `ChatMessage`). `timestamp` holds the value
`parseInt(renderer.timestampUsec) / 1000` computed by the parsers. -/
structure ChatMessage where
  text : String
  author : String
  id : String
  authorThumbnails : List Thumbnail
  badges : List Badge
  authorId : String
  timestamp : ℚ
  textParts : List TextPart
  deriving DecidableEq, Repr

/-- JS `a || b` on strings, where `""` is the only falsy string. -/
def jsOr (a b : String) : String := if a = "" then b else a

/-- The text one run contributes to the joined message text: the
`renderer.message.runs.map` callback shared verbatim by `parser.ts` and the
legacy parser in `youtube.ts`. -/
def runMsgText : Run → String
  | .text s => if s = "" then "" else s.trim
  | .emoji e =>
      if e.label = "" then jsOr (e.shortcuts.getD 1 "") (jsOr (e.shortcuts.getD 0 "") "")
      else ":" ++ e.label ++ ":"

/-- The `textParts` entry built from one run by both parsers. A falsy
`run.text` sends the source to `run.emoji.image.thumbnails` on a run with
no emoji and throws, which is the `Except.error` case here. The source
reads the first emoji thumbnail via a destructive `shift()` and falls back
to `""` when there is none. -/
def runTextPart : Run → Except Unit TextPart
  | .text s => if s = "" then .error () else .ok (.text s)
  | .emoji e =>
      let url := match e.thumbnails.head? with
        | some t => t.url
        | none => ""
      let shortcut := e.shortcuts.getD 0 ""
      .ok (.emoji url shortcut e.isCustomEmoji (if e.isCustomEmoji then shortcut else e.emojiId))

/-- Badge construction shared by both parsers. -/
def parseBadge (b : RawBadge) : Badge := ⟨b.label, b.iconType⟩

/-- `parseAction` (`parser.ts`): parse one action into a `ChatMessage`,
raising (`Except.error`) when the action is malformed or a run cannot be
turned into a text part; a missing `authorBadges` field defaults to an
empty badge list via `(renderer.authorBadges ?? [])`. -/
def parseAction (a : RawAction) : Except Unit ChatMessage :=
  match a with
  | .malformed => .error ()
  | .item r => do
      let msg := String.intercalate " " (r.runs.map runMsgText)
      let badges := (r.authorBadges.getD []).map parseBadge
      let textParts ← r.runs.mapM runTextPart
      pure { text := msg, author := r.authorNameSimpleText, id := r.id,
             authorThumbnails := r.authorPhotoThumbnails, badges := badges,
             authorId := r.authorExternalChannelId,
             timestamp := (r.timestampUsec : ℚ) / 1000,
             textParts := textParts }

/-- The duplicated legacy parser inlined in the old `fetchChatMessages`
variant (`youtube.ts`): identical to `parseAction` except that a missing
`authorBadges` makes it call `.map` on `undefined` and throw, so the whole
item is discarded by the per-action `catch`. -/
def parseActionLegacy (a : RawAction) : Except Unit ChatMessage :=
  match a with
  | .malformed => .error ()
  | .item r =>
      match r.authorBadges with
      | none => .error ()
      | some bs => do
          let msg := String.intercalate " " (r.runs.map runMsgText)
          let badges := bs.map parseBadge
          let textParts ← r.runs.mapM runTextPart
          pure { text := msg, author := r.authorNameSimpleText, id := r.id,
                 authorThumbnails := r.authorPhotoThumbnails, badges := badges,
                 authorId := r.authorExternalChannelId,
                 timestamp := (r.timestampUsec : ℚ) / 1000,
                 textParts := textParts }

/-- `validateMessage` (`youtube.ts`): a message must have non-empty `text`,
`author` and `id`. The `!message` null check of the source is the
`Option.none` case at the call sites below, and the `typeof x === "string"`
checks are discharged by typing. -/
def validateMessage (m : ChatMessage) : Bool :=
  m.text != "" && m.author != "" && m.id != ""

/-- The per-snapshot tail of the exported `fetchChatMessages`
(`youtube.ts`): `actions.map(a => { try { return parseAction(a) } catch {
return null } }).filter(validateMessage)`. The JS filter drops the nulls
and the invalid messages; the result is the list of surviving messages. -/
def fetchMessagesOf (acts : List RawAction) : List ChatMessage :=
  (acts.map (fun a => (parseAction a).toOption)).filterMap
    (fun o => match o with
      | none => none
      | some m => if validateMessage m then some m else none)

/-- The same pipeline over the legacy inline parser (the duplicated old
`fetchChatMessages` variant in `youtube.ts`). -/
def fetchMessagesLegacyOf (acts : List RawAction) : List ChatMessage :=
  (acts.map (fun a => (parseActionLegacy a).toOption)).filterMap
    (fun o => match o with
      | none => none
      | some m => if validateMessage m then some m else none)

/-- Whether an action is discarded by the exported pipeline: its parse
throws, or the parsed message fails `validateMessage`. -/
def discardedAction (a : RawAction) : Bool :=
  match parseAction a with
  | .error _ => true
  | .ok m => !validateMessage m

/-- Whether a well-shaped action carries the `authorBadges` field (the
condition under which the two parser variants agree). -/
def hasBadges : RawAction → Bool
  | .malformed => true
  | .item r => !(r.authorBadges == none)

/-- The configuration fields of `ChatListener` fixed at construction, after
the `options.x || default` normalisation of the constructor. -/
structure ListenerConfig where
  interval : ℚ
  dynamicPolling : Bool
  maxInterval : ℚ
  maxStoredIds : Nat

/-- The per-instance mutable state of `ChatListener` read and written by
`_poll`: the seen-id set (a JS `Set`, which iterates in insertion order, so
a list of distinct ids ordered oldest first) and the current interval. -/
structure ListenerState where
  seenMessages : List String
  currentInterval : ℚ

/-- One `seenMessages` update from the body of the `newMessages.forEach`
loop in `_poll`: when `size > maxStoredIds`, take the first value of the
insertion-order iterator and, if truthy (a non-empty id), delete it; then
`add` the new id, which is a no-op when the id is already present. -/
def addWithEvict (maxStoredIds : Nat) (seen : List String) (id : String) : List String :=
  let seen1 :=
    if maxStoredIds < seen.length then
      match seen with
      | [] => []
      | h :: t => if h = "" then h :: t else t
    else seen
  if seen1.contains id then seen1 else seen1 ++ [id]

/-- Notify every registered callback of one message, in registration order,
mirroring `this.callbacks.forEach((callback) => callback(msg))`. `thr o m`
says whether callback `o` throws when invoked with `m`. Invocations are
recorded in order; a throw ends the walk — the exception escapes `forEach`.
Returns the invocations made and whether an exception escaped. -/
def notifyAll {O : Type} (thr : O → ChatMessage → Bool) (m : ChatMessage) :
    List O → List (O × ChatMessage) × Bool
  | [] => ([], false)
  | o :: os =>
      if thr o m then ([(o, m)], true)
      else
        let rest := notifyAll thr m os
        ((o, m) :: rest.1, rest.2)

/-- The `newMessages.forEach` loop of `_poll`: for each message in order,
update `seenMessages` (possible eviction, then insertion) and notify every
callback. An exception thrown by a callback aborts the rest of the loop —
the remaining callbacks for that message and all later messages — while the
updates already made stay in place. Returns the final seen set, the
invocations made, and whether an exception escaped the loop. -/
def deliverLoop {O : Type} (maxStoredIds : Nat) (thr : O → ChatMessage → Bool)
    (obs : List O) : List ChatMessage → List String → List String × List (O × ChatMessage) × Bool
  | [], seen => (seen, [], false)
  | m :: ms, seen =>
      let seen1 := addWithEvict maxStoredIds seen m.id
      let n := notifyAll thr m obs
      if n.2 then (seen1, n.1, true)
      else
        let rest := deliverLoop maxStoredIds thr obs ms seen1
        (rest.1, n.1 ++ rest.2.1, rest.2.2)

/-- Everything observable about one execution of the body of `_poll` past
its initial `isListening` guard: the listener state afterwards, the
callback invocations made, whether `console.error` ran, and the delay
handed to the final `setTimeout`. -/
structure TickResult (O : Type) where
  state : ListenerState
  deliveries : List (O × ChatMessage)
  errorLogged : Bool
  scheduledInterval : ℚ

/-- The body of `ChatListener._poll` (`listener.ts`) after its
`isListening` guard, for one resolved fetch: `none` is a rejected
`fetchChatMessages` promise (landing in the `catch`, which logs and leaves
all state untouched), `some messages` a resolved one. On the success path
the new messages are the fetch result filtered against the seen set as it
stood at the start of the tick; the delivery loop runs; then — only if no
callback exception escaped into the `catch` — `currentInterval` is
recomputed. The final `setTimeout` always runs, with whatever
`currentInterval` then holds. -/
def pollTick {O : Type} (cfg : ListenerConfig) (thr : O → ChatMessage → Bool)
    (obs : List O) (st : ListenerState) :
    Option (List ChatMessage) → TickResult O
  | none => ⟨st, [], true, st.currentInterval⟩
  | some messages =>
      let newMessages := messages.filter (fun m => !(st.seenMessages.contains m.id))
      let r := deliverLoop cfg.maxStoredIds thr obs newMessages st.seenMessages
      if r.2.2 then ⟨⟨r.1, st.currentInterval⟩, r.2.1, true, st.currentInterval⟩
      else
        let cur :=
          if cfg.dynamicPolling then
            if 0 < newMessages.length then cfg.interval
            else min (st.currentInterval * (3 / 2)) cfg.maxInterval
          else cfg.interval
        ⟨⟨r.1, cur⟩, r.2.1, false, cur⟩

/-- Iterate `pollTick` over a list of fetch outcomes: the listener state
after that many consecutive ticks. -/
def runPollState {O : Type} (cfg : ListenerConfig) (thr : O → ChatMessage → Bool)
    (obs : List O) (st : ListenerState) : List (Option (List ChatMessage)) → ListenerState
  | [] => st
  | r :: rs => runPollState cfg thr obs (pollTick cfg thr obs st r).state rs

/-- The callback invocations of each tick when iterating `pollTick` over a
list of fetch outcomes. -/
def runPollDeliveries {O : Type} (cfg : ListenerConfig) (thr : O → ChatMessage → Bool)
    (obs : List O) (st : ListenerState) :
    List (Option (List ChatMessage)) → List (List (O × ChatMessage))
  | [] => []
  | r :: rs =>
      (pollTick cfg thr obs st r).deliveries ::
        runPollDeliveries cfg thr obs (pollTick cfg thr obs st r).state rs

/-- A listener instance together with its JS environment, for the
event-level semantics: `listening` is `isListening`; `timeoutId` is the
(possibly stale) handle stored in `this.timeoutId`; `pendingTimers` is the
set of `setTimeout` timers created and neither fired nor cleared, as
(handle, delay) pairs; `inFlight` counts the `_poll` activations that
passed the `isListening` guard and are awaiting their fetch; `fetchCount`
counts `fetchChatMessages` invocations; the logs accumulate callback
invocations and `console.error` calls. -/
structure GState (O : Type) where
  listening : Bool
  timeoutId : Option Nat
  pendingTimers : List (Nat × ℚ)
  nextTimer : Nat
  inFlight : Nat
  fetchCount : Nat
  lst : ListenerState
  callbacks : List O
  deliveriesLog : List (O × ChatMessage)
  errorLog : Nat

/-- The atomic events of one listener instance under the JS
run-to-completion model: the public calls `onMessage`, `start` and `stop`;
a pending timer firing; and an in-flight `_poll` activation resuming with
its fetch outcome. -/
inductive Event (O : Type)
  | register (o : O)
  | start
  | stop
  | timerFire (t : Nat)
  | complete (r : Option (List ChatMessage))
  deriving DecidableEq

/-- The synchronous prefix of `_poll`: return at once when not listening,
otherwise begin the snapshot fetch (the activation is now in flight). -/
def pollEntry {O : Type} (s : GState O) : GState O :=
  if s.listening then
    { s with inFlight := s.inFlight + 1, fetchCount := s.fetchCount + 1 }
  else s

/-- One atomic step. `register o` is `onMessage` (a `Set` add — idempotent
on an already-registered callback). `start` returns at once while
listening, otherwise raises the flag and enters `_poll`. `stop` lowers the
flag and clears the timer named by `timeoutId`, if any such timer is still
pending; the stale handle itself is kept, as in the source. `timerFire t`
is timer `t` elapsing: the timer is consumed and `_poll` is entered — a
handle no longer pending does nothing. `complete r` resumes one in-flight
activation at the `await`: the rest of the `_poll` body runs (with the
callback set as registered at resumption time) and unconditionally
schedules a fresh timer, overwriting `timeoutId`. -/
def step {O : Type} [DecidableEq O] (cfg : ListenerConfig)
    (thr : O → ChatMessage → Bool) (s : GState O) : Event O → GState O
  | .register o =>
      { s with callbacks := if o ∈ s.callbacks then s.callbacks else s.callbacks ++ [o] }
  | .start => if s.listening then s else pollEntry { s with listening := true }
  | .stop =>
      { s with listening := false,
               pendingTimers :=
                 match s.timeoutId with
                 | some t => s.pendingTimers.filter (fun p => p.1 != t)
                 | none => s.pendingTimers }
  | .timerFire t =>
      if (s.pendingTimers.filter (fun p => p.1 == t)).isEmpty then s
      else pollEntry { s with pendingTimers := s.pendingTimers.filter (fun p => p.1 != t) }
  | .complete r =>
      if s.inFlight = 0 then s
      else
        let tr := pollTick cfg thr s.callbacks s.lst r
        { s with inFlight := s.inFlight - 1,
                 lst := tr.state,
                 deliveriesLog := s.deliveriesLog ++ tr.deliveries,
                 errorLog := s.errorLog + (if tr.errorLogged then 1 else 0),
                 pendingTimers := s.pendingTimers ++ [(s.nextTimer, tr.scheduledInterval)],
                 timeoutId := some s.nextTimer,
                 nextTimer := s.nextTimer + 1 }

/-- Run a sequence of events from a state. -/
def run {O : Type} [DecidableEq O] (cfg : ListenerConfig)
    (thr : O → ChatMessage → Bool) (s : GState O) : List (Event O) → GState O
  | [] => s
  | e :: es => run cfg thr (step cfg thr s e) es

/-- A freshly constructed listener (the constructor): not listening, empty
seen set and callback registry, `currentInterval` at the base interval, no
timers, no fetches. -/
def initState (O : Type) (cfg : ListenerConfig) : GState O :=
  ⟨false, none, [], 1, 0, 0, ⟨[], cfg.interval⟩, [], [], 0⟩

/-- The quiescent call discipline: `start` and `stop` are invoked only
while no `_poll` activation is awaiting its fetch. -/
def eventOk {O : Type} (s : GState O) : Event O → Bool
  | .start => s.inFlight == 0
  | .stop => s.inFlight == 0
  | _ => true

/-- Whether every event of the sequence respects the quiescent call
discipline in the state at which it occurs. -/
def guardedB {O : Type} [DecidableEq O] (cfg : ListenerConfig)
    (thr : O → ChatMessage → Bool) (s : GState O) : List (Event O) → Bool
  | [] => true
  | e :: es => eventOk s e && guardedB cfg thr (step cfg thr s e) es

/-- Test fixture: a minimal valid chat message with the given text and id. -/
def mkMsgT (t i : String) : ChatMessage := ⟨t, "a", i, [], [], "c", 0, []⟩

/-- Test fixture: a minimal valid chat message with the given id. -/
def mkMsg (i : String) : ChatMessage := mkMsgT "t" i

/-- Test fixture: the default configuration, dynamic polling off. -/
def cfgStatic : ListenerConfig := ⟨1000, false, 5000, 100⟩

/-- Test fixture: the default configuration with dynamic polling on. -/
def cfgDyn : ListenerConfig := ⟨1000, true, 5000, 100⟩

/-- Test fixture: callbacks that never throw, over `Nat`-labelled
callbacks. -/
def noThrow : Nat → ChatMessage → Bool := fun _ _ => false

/-- Test fixture: callback `0` always throws, every other callback never
does. -/
def firstThrows : Nat → ChatMessage → Bool := fun o _ => o == 0

/-- Test fixture: callback `1` throws exactly when invoked with a message
whose id is `B`; every other invocation returns normally. -/
def secondThrowsOnB : Nat → ChatMessage → Bool := fun o m => o == 1 && m.id == "B"

/-- Test fixture: an emoji run with an accessibility label, parsing to the
message text `:wave:`. -/
def emojiRun : Run := .emoji ⟨"wave", ["w0", "w1"], [⟨16, 16, "turl"⟩], false, "EMOJI"⟩

/-- Test fixture: a well-shaped renderer carrying `authorBadges`. -/
def goodRenderer (i : String) : Renderer :=
  ⟨[emojiRun], [⟨32, 32, "u"⟩], "alice", i, some [⟨"Owner", "OWNER"⟩], "chan", 1000000⟩

/-- Test fixture: a well-shaped renderer lacking `authorBadges`. -/
def badgelessRenderer : Renderer :=
  ⟨[emojiRun], [], "bob", "id2", none, "chan2", 2000000⟩

/-- Test fixture: a well-shaped renderer whose author name is empty, so the
parsed message fails `validateMessage`. -/
def emptyAuthorRenderer : Renderer :=
  ⟨[emojiRun], [], "", "id3", some [], "chan3", 3000000⟩

/-- The single-flight invariant of the event-level semantics: at most one
of (in-flight activation, pending timer) exists; every pending timer is the
one named by `timeoutId`; and a non-listening listener has nothing in
flight and nothing pending. -/
def flightInv {O : Type} (s : GState O) : Prop :=
  s.inFlight + s.pendingTimers.length ≤ 1 ∧
  (∀ p ∈ s.pendingTimers, s.timeoutId = some p.1) ∧
  (s.listening = false → s.inFlight = 0 ∧ s.pendingTimers = [])

/-- When no callback throws on `m`, `forEach` invokes every callback in
order and no exception escapes. -/
theorem notifyAll_of_noThrow {O : Type} (thr : O → ChatMessage → Bool) (m : ChatMessage)
    (h : ∀ o, thr o m = false) :
    ∀ obs : List O, notifyAll thr m obs = (obs.map (fun o => (o, m)), false)
  | [] => rfl
  | o :: os => by
      simp [notifyAll, h o, notifyAll_of_noThrow thr m h os]

/-- When no callback ever throws, the delivery loop delivers every message
to every callback, in message-major order, and no exception escapes. -/
theorem deliverLoop_of_noThrow {O : Type} (maxIds : Nat) (thr : O → ChatMessage → Bool)
    (obs : List O) (h : ∀ o m, thr o m = false) :
    ∀ (ms : List ChatMessage) (seen : List String),
      (deliverLoop maxIds thr obs ms seen).2.1
          = ms.flatMap (fun m => obs.map (fun o => (o, m))) ∧
      (deliverLoop maxIds thr obs ms seen).2.2 = false
  | [], seen => by simp [deliverLoop]
  | m :: ms, seen => by
      have ih := deliverLoop_of_noThrow maxIds thr obs h ms (addWithEvict maxIds seen m.id)
      simp [deliverLoop, notifyAll_of_noThrow thr m (fun o => h o m), ih.1, ih.2]

/-- On a successful fetch with no callback exception, the invocations of
the tick are exactly: each message of the snapshot that passes the dedup
filter, delivered to each callback in order. -/
theorem pollTick_deliveries_of_noThrow {O : Type} (cfg : ListenerConfig)
    (thr : O → ChatMessage → Bool) (obs : List O) (st : ListenerState)
    (msgs : List ChatMessage) (h : ∀ o m, thr o m = false) :
    (pollTick cfg thr obs st (some msgs)).deliveries
      = (msgs.filter (fun m => !(st.seenMessages.contains m.id))).flatMap
          (fun m => obs.map (fun o => (o, m))) := by
  have hd := deliverLoop_of_noThrow cfg.maxStoredIds thr obs h
    (msgs.filter (fun m => !(st.seenMessages.contains m.id))) st.seenMessages
  simp only [pollTick, hd.1, hd.2, Bool.false_eq_true, if_false]

/-- On a successful fetch with no callback exception, the interval is
recomputed exactly by the dynamic-polling rule of `_poll`. -/
theorem pollTick_interval_of_noThrow {O : Type} (cfg : ListenerConfig)
    (thr : O → ChatMessage → Bool) (obs : List O) (st : ListenerState)
    (msgs : List ChatMessage) (h : ∀ o m, thr o m = false) :
    (pollTick cfg thr obs st (some msgs)).state.currentInterval
      = (if cfg.dynamicPolling then
          if 0 < (msgs.filter (fun m => !(st.seenMessages.contains m.id))).length
          then cfg.interval
          else min (st.currentInterval * (3 / 2)) cfg.maxInterval
        else cfg.interval) := by
  have hd := deliverLoop_of_noThrow cfg.maxStoredIds thr obs h
    (msgs.filter (fun m => !(st.seenMessages.contains m.id))) st.seenMessages
  simp only [pollTick, hd.2, Bool.false_eq_true, if_false]

/-- When no callback of the list throws on `m`, `forEach` invokes every
callback of the list in order and no exception escapes (membership-bounded
variant of `notifyAll_of_noThrow`). -/
theorem notifyAll_of_noThrow_mem {O : Type} (thr : O → ChatMessage → Bool) (m : ChatMessage) :
    ∀ obs : List O, (∀ o ∈ obs, thr o m = false) →
      notifyAll thr m obs = (obs.map (fun o => (o, m)), false)
  | [], _ => rfl
  | o :: os, h => by
      simp [notifyAll, h o (List.mem_cons_self o os),
        notifyAll_of_noThrow_mem thr m os (fun x hx => h x (List.mem_cons_of_mem o hx))]

/-- When the first callback to throw on `m` sits at an arbitrary position
of the registration order, `forEach` invokes exactly the callbacks up to
and including it — the throwing one still receives the message — and the
exception escapes; the callbacks after it are never invoked. -/
theorem notifyAll_first_throws {O : Type} (thr : O → ChatMessage → Bool) (m : ChatMessage)
    (oj : O) (obsRest : List O) :
    ∀ obsFront : List O, (∀ o ∈ obsFront, thr o m = false) → thr oj m = true →
      notifyAll thr m (obsFront ++ oj :: obsRest)
        = (obsFront.map (fun o => (o, m)) ++ [(oj, m)], true)
  | [], _, hthr => by simp [notifyAll, hthr]
  | o :: os, h, hthr => by
      have ih := notifyAll_first_throws thr m oj obsRest os
        (fun x hx => h x (List.mem_cons_of_mem o hx)) hthr
      simp [notifyAll, h o (List.mem_cons_self o os), ih]

/-- When the first throwing notification of the delivery loop happens at
message `mth` (an arbitrary position of the new-message list, provided no
callback throws on any earlier message), the loop delivers all earlier
messages to every callback and then aborts inside the notification of
`mth`: the messages after `mth` are not delivered at all, while the seen
set keeps exactly the insertions made for the earlier messages and for
`mth` itself. -/
theorem deliverLoop_throw_at {O : Type} (maxIds : Nat) (thr : O → ChatMessage → Bool)
    (obs : List O) (mth : ChatMessage) (rest : List ChatMessage)
    (dels : List (O × ChatMessage))
    (hnotify : notifyAll thr mth obs = (dels, true)) :
    ∀ (front : List ChatMessage) (seen : List String),
      (∀ m ∈ front, ∀ o ∈ obs, thr o m = false) →
      deliverLoop maxIds thr obs (front ++ mth :: rest) seen
        = (List.foldl (fun s m => addWithEvict maxIds s m.id) seen (front ++ [mth]),
           front.flatMap (fun m => obs.map (fun o => (o, m))) ++ dels, true)
  | [], seen, _ => by
      simp [deliverLoop, hnotify]
  | m :: front, seen, h => by
      have ih := deliverLoop_throw_at maxIds thr obs mth rest dels hnotify front
        (addWithEvict maxIds seen m.id)
        (fun x hx o ho => h x (List.mem_cons_of_mem m hx) o ho)
      have hm := notifyAll_of_noThrow_mem thr m obs
        (fun o ho => h m (List.mem_cons_self m front) o ho)
      simp [deliverLoop, hm, ih, List.append_assoc]

/-- From a non-listening state, a trace without `start` keeps the listener
non-listening and performs no fetch. -/
theorem run_frozen_of_not_listening {O : Type} [DecidableEq O] (cfg : ListenerConfig)
    (thr : O → ChatMessage → Bool) :
    ∀ (evs : List (Event O)) (s : GState O), s.listening = false → Event.start ∉ evs →
      (run cfg thr s evs).listening = false ∧ (run cfg thr s evs).fetchCount = s.fetchCount
  | [], s, h, _ => ⟨h, rfl⟩
  | e :: es, s, h, hmem => by
      have hne : e ≠ Event.start := fun hx => hmem (hx ▸ List.mem_cons_self e es)
      have hes : Event.start ∉ es := fun hx => hmem (List.mem_cons_of_mem e hx)
      have hstep : (step cfg thr s e).listening = false ∧
          (step cfg thr s e).fetchCount = s.fetchCount := by
        cases e with
        | register o => exact ⟨h, rfl⟩
        | start => exact absurd rfl hne
        | stop => exact ⟨rfl, rfl⟩
        | timerFire t =>
            simp only [step]
            split
            · exact ⟨h, rfl⟩
            · simp [pollEntry, h]
        | complete r =>
            simp only [step]
            split
            · exact ⟨h, rfl⟩
            · exact ⟨h, rfl⟩
      have ih := run_frozen_of_not_listening cfg thr es (step cfg thr s e) hstep.1 hes
      exact ⟨ih.1, by rw [run, ih.2, hstep.2]⟩

/-- The single-flight invariant is preserved by every step that respects
the quiescent call discipline. -/
theorem flightInv_step {O : Type} [DecidableEq O] (cfg : ListenerConfig)
    (thr : O → ChatMessage → Bool) (s : GState O) (e : Event O)
    (hI : flightInv s) (hok : eventOk s e = true) : flightInv (step cfg thr s e) := by
  obtain ⟨h1, h2, h3⟩ := hI
  cases e with
  | register o =>
      exact ⟨h1, h2, h3⟩
  | start =>
      have hin : s.inFlight = 0 := by simpa [eventOk] using hok
      simp only [step]
      split
      · exact ⟨h1, h2, h3⟩
      · rename_i hlis
        have hl : s.listening = false := by
          cases hb : s.listening
          · rfl
          · exact absurd hb hlis
        have hpt : s.pendingTimers = [] := (h3 hl).2
        refine ⟨?_, ?_, ?_⟩
        · simp [pollEntry, hin, hpt]
        · simp [pollEntry, hpt]
        · simp [pollEntry]
  | stop =>
      have hin : s.inFlight = 0 := by simpa [eventOk] using hok
      have hempty : (match s.timeoutId with
          | some t => s.pendingTimers.filter (fun p => p.1 != t)
          | none => s.pendingTimers) = [] := by
        cases ht : s.timeoutId with
        | none =>
            cases hp : s.pendingTimers with
            | nil => simp
            | cons q qs =>
                have := h2 q (by rw [hp]; exact List.mem_cons_self q qs)
                rw [ht] at this
                exact absurd this (by simp)
        | some t =>
            simp only []
            rw [List.filter_eq_nil_iff]
            intro p hp
            have := h2 p hp
            rw [ht] at this
            have hpt : p.1 = t := by injection this with hh; exact hh.symm
            simp [hpt]
      refine ⟨?_, ?_, ?_⟩
      · simp [step, hempty, hin]
      · simp [step, hempty]
      · simp [step, hempty, hin]
  | timerFire t =>
      simp only [step]
      split
      · exact ⟨h1, h2, h3⟩
      · rename_i hne
        have hnonempty : s.pendingTimers ≠ [] := by
          intro hp
          exact hne (by simp [hp])
        cases hl : s.listening with
        | false =>
            exact absurd (h3 hl).2 hnonempty
        | true =>
            have hlen : 1 ≤ s.pendingTimers.length :=
              List.length_pos.mpr hnonempty
            have hin : s.inFlight = 0 := by omega
            have hone : s.pendingTimers.length = 1 := by omega
            obtain ⟨q, hq⟩ := List.length_eq_one.mp hone
            have hqt : q.1 = t := by
              by_contra hc
              apply hne
              rw [hq]
              simp [List.filter_cons, hc]
            have hfilter : s.pendingTimers.filter (fun p => p.1 != t) = [] := by
              rw [hq]
              simp [List.filter_cons, hqt]
            rw [hfilter]
            refine ⟨?_, ?_, ?_⟩
            · simp [pollEntry, hl, hin]
            · simp [pollEntry, hl]
            · simp [pollEntry, hl]
  | complete r =>
      simp only [step]
      split
      · exact ⟨h1, h2, h3⟩
      · rename_i hin0
        have hfl : 1 ≤ s.inFlight := Nat.one_le_iff_ne_zero.mpr hin0
        have hpt : s.pendingTimers = [] :=
          List.eq_nil_of_length_eq_zero (by omega)
        have hlis : s.listening = true := by
          cases hb : s.listening
          · exact absurd (h3 hb).1 hin0
          · rfl
        refine ⟨?_, ?_, ?_⟩
        · simp [hpt]
          omega
        · intro p hp
          rw [hpt] at hp
          simp at hp
          simp [hp]
        · intro hcontra
          rw [hlis] at hcontra
          exact absurd hcontra (by simp)

/-- The single-flight invariant is preserved by every guarded trace. -/
theorem flightInv_run {O : Type} [DecidableEq O] (cfg : ListenerConfig)
    (thr : O → ChatMessage → Bool) :
    ∀ (evs : List (Event O)) (s : GState O),
      guardedB cfg thr s evs = true → flightInv s → flightInv (run cfg thr s evs)
  | [], _, _, hI => hI
  | e :: es, s, hg, hI => by
      have hg2 : eventOk s e = true ∧ guardedB cfg thr (step cfg thr s e) es = true := by
        simpa [guardedB, Bool.and_eq_true] using hg
      exact flightInv_run cfg thr es (step cfg thr s e) hg2.2
        (flightInv_step cfg thr s e hI hg2.1)

/-- A freshly constructed listener satisfies the single-flight invariant. -/
theorem flightInv_initState {O : Type} (cfg : ListenerConfig) :
    flightInv (initState O cfg) := by
  refine ⟨by simp [initState], by simp [initState], by simp [initState]⟩

/-- On an action carrying `authorBadges`, the legacy inline parser and
`parseAction` agree. -/
theorem parseActionLegacy_eq (a : RawAction) (h : hasBadges a = true) :
    parseActionLegacy a = parseAction a := by
  cases a with
  | malformed => rfl
  | item r =>
      cases hb : r.authorBadges with
      | none => simp [hasBadges, hb] at h
      | some bs => simp [parseAction, parseActionLegacy, hb]

/-- On a snapshot whose items all carry `authorBadges`, the exported
pipeline and the legacy pipeline return equal message sequences. -/
theorem fetchMessagesOf_eq_legacy (acts : List RawAction)
    (h : acts.all hasBadges = true) :
    fetchMessagesOf acts = fetchMessagesLegacyOf acts := by
  unfold fetchMessagesOf fetchMessagesLegacyOf
  have hmap : acts.map (fun a => (parseAction a).toOption)
      = acts.map (fun a => (parseActionLegacy a).toOption) := by
    apply List.map_congr_left
    intro a ha
    rw [parseActionLegacy_eq a (by
      rw [List.all_eq_true] at h
      exact h a ha)]
  rw [hmap]

/-- Claim C1, executed on the test the claim itself prescribes: with
`maxStoredIds = 2` and four ticks fetching [A], [B], [C], [A], the seen-id
set ends up holding the three ids A, B, C — exceeding the claimed bound of
2 — and the fourth tick delivers nothing instead of re-delivering A. The
eviction guard `size > maxStoredIds` in `_poll` only fires once the set
already holds `maxStoredIds + 1` entries, so C was inserted without
evicting A, and A is still suppressed on the fourth tick. This contradicts
the documented meaning of the option (the maximum number of message ids
stored) and the claimed FIFO bound. -/
theorem c1_eviction_off_by_one :
    (runPollState ⟨1000, false, 5000, 2⟩ noThrow [0] ⟨[], 1000⟩
        [some [mkMsg "A"], some [mkMsg "B"], some [mkMsg "C"], some [mkMsg "A"]]).seenMessages
      = ["A", "B", "C"] ∧
    (runPollState ⟨1000, false, 5000, 2⟩ noThrow [0] ⟨[], 1000⟩
        [some [mkMsg "A"], some [mkMsg "B"], some [mkMsg "C"],
          some [mkMsg "A"]]).seenMessages.length = 3 ∧
    (runPollDeliveries ⟨1000, false, 5000, 2⟩ noThrow [0] ⟨[], 1000⟩
        [some [mkMsg "A"], some [mkMsg "B"], some [mkMsg "C"], some [mkMsg "A"]]).getLast?
      = some [] := by
  decide

/-- Claim C2 counterexample: with callbacks 0 and 1 registered in that
order and callback 0 always throwing, a tick fetching the two fresh
messages A and B invokes only callback 0 on A. Callback 1 never receives
A, and B is delivered to nobody — refuting the claim that every other
observer still receives the message and that subsequent messages of the
tick are still delivered. -/
theorem c2_second_observer_starved :
    (pollTick cfgStatic firstThrows [0, 1] ⟨[], 1000⟩
        (some [mkMsg "A", mkMsg "B"])).deliveries = [(0, mkMsg "A")] ∧
    ((1, mkMsg "A") ∉ (pollTick cfgStatic firstThrows [0, 1] ⟨[], 1000⟩
        (some [mkMsg "A", mkMsg "B"])).deliveries) ∧
    ((0, mkMsg "B") ∉ (pollTick cfgStatic firstThrows [0, 1] ⟨[], 1000⟩
        (some [mkMsg "A", mkMsg "B"])).deliveries) ∧
    ((1, mkMsg "B") ∉ (pollTick cfgStatic firstThrows [0, 1] ⟨[], 1000⟩
        (some [mkMsg "A", mkMsg "B"])).deliveries) := by
  decide

/-- Claim C2 as amended: for any registered callback at any position of
the registration order throwing on any message of the tick — the first
throwing invocation, with no callback throwing on an earlier new message
and no earlier callback throwing on that message — the tick delivers the
earlier new messages to every callback, delivers the throwing message only
to the callbacks up to and including the thrower (the callbacks after it
never receive it), and delivers no later message of the tick to anybody;
the seen-set insertions already made — the earlier messages and the
throwing message itself — stay in place, the exception lands in the
tick-level `catch` (`console.error` runs) and the interval recomputation
is skipped; but the loop still schedules the next tick, at the unchanged
current interval. -/
theorem c2_observer_throw_aborts_tick {O : Type} (cfg : ListenerConfig)
    (thr : O → ChatMessage → Bool) (obsFront obsRest : List O) (oj : O)
    (st : ListenerState) (msgs front rest : List ChatMessage) (mth : ChatMessage)
    (hsplit : msgs.filter (fun m => !(st.seenMessages.contains m.id)) = front ++ mth :: rest)
    (hfront : ∀ m ∈ front, ∀ o ∈ obsFront ++ oj :: obsRest, thr o m = false)
    (hobsFront : ∀ o ∈ obsFront, thr o mth = false)
    (hthr : thr oj mth = true) :
    (pollTick cfg thr (obsFront ++ oj :: obsRest) st (some msgs)).deliveries
      = front.flatMap (fun m => (obsFront ++ oj :: obsRest).map (fun o => (o, m)))
        ++ (obsFront.map (fun o => (o, mth)) ++ [(oj, mth)]) ∧
    (pollTick cfg thr (obsFront ++ oj :: obsRest) st (some msgs)).state.seenMessages
      = List.foldl (fun s m => addWithEvict cfg.maxStoredIds s m.id)
          st.seenMessages (front ++ [mth]) ∧
    (pollTick cfg thr (obsFront ++ oj :: obsRest) st (some msgs)).errorLogged = true ∧
    (pollTick cfg thr (obsFront ++ oj :: obsRest) st (some msgs)).scheduledInterval
      = st.currentInterval ∧
    (pollTick cfg thr (obsFront ++ oj :: obsRest) st (some msgs)).state.currentInterval
      = st.currentInterval := by
  have hnotify := notifyAll_first_throws thr mth oj obsRest obsFront hobsFront hthr
  have hdl := deliverLoop_throw_at cfg.maxStoredIds thr (obsFront ++ oj :: obsRest) mth rest
    (obsFront.map (fun o => (o, mth)) ++ [(oj, mth)]) hnotify front st.seenMessages hfront
  simp only [pollTick, hsplit, hdl, if_true]
  exact ⟨trivial, trivial, trivial, trivial, trivial⟩

/-- Witness for the amended claim C2: callbacks [0, 1, 2] with callback 1
(the middle one) throwing exactly on the middle message B of the snapshot
[A, B, C] over an empty seen set — A reaches all three callbacks, B
reaches callbacks 0 and 1 only, C reaches nobody, and the seen set keeps
A and B. -/
theorem c2_observer_throw_aborts_tick_witness :
    (pollTick cfgStatic secondThrowsOnB ([0] ++ 1 :: [2]) ⟨[], 1000⟩
        (some [mkMsg "A", mkMsg "B", mkMsg "C"])).deliveries
      = [mkMsg "A"].flatMap (fun m => ([0] ++ 1 :: [2]).map (fun o => (o, m)))
        ++ ([0].map (fun o => (o, mkMsg "B")) ++ [(1, mkMsg "B")]) ∧
    (pollTick cfgStatic secondThrowsOnB ([0] ++ 1 :: [2]) ⟨[], 1000⟩
        (some [mkMsg "A", mkMsg "B", mkMsg "C"])).state.seenMessages
      = List.foldl (fun s m => addWithEvict cfgStatic.maxStoredIds s m.id)
          (⟨[], 1000⟩ : ListenerState).seenMessages ([mkMsg "A"] ++ [mkMsg "B"]) ∧
    (pollTick cfgStatic secondThrowsOnB ([0] ++ 1 :: [2]) ⟨[], 1000⟩
        (some [mkMsg "A", mkMsg "B", mkMsg "C"])).errorLogged = true ∧
    (pollTick cfgStatic secondThrowsOnB ([0] ++ 1 :: [2]) ⟨[], 1000⟩
        (some [mkMsg "A", mkMsg "B", mkMsg "C"])).scheduledInterval = 1000 ∧
    (pollTick cfgStatic secondThrowsOnB ([0] ++ 1 :: [2]) ⟨[], 1000⟩
        (some [mkMsg "A", mkMsg "B", mkMsg "C"])).state.currentInterval = 1000 :=
  c2_observer_throw_aborts_tick cfgStatic secondThrowsOnB [0] [2] 1 ⟨[], 1000⟩
    [mkMsg "A", mkMsg "B", mkMsg "C"] [mkMsg "A"] [mkMsg "C"] (mkMsg "B")
    (by decide) (by decide) (by decide) (by decide)

/-- Claim C3 counterexample: a tick whose fetch fails skips the interval
recomputation entirely (the `catch` only logs). With dynamic polling on,
base 1000, max 5000 and current interval 2250, the claim demands the
interval become min(2250 x 1.5, 5000) = 3375 after an empty (here:
failed) tick, but the code leaves it at 2250. -/
theorem c3_failed_tick_skips_backoff :
    (pollTick cfgDyn noThrow [0] ⟨[], 2250⟩ none).state.currentInterval = 2250 ∧
    ¬ ((pollTick cfgDyn noThrow [0] ⟨[], 2250⟩ none).state.currentInterval
        = min ((2250 : ℚ) * (3 / 2)) 5000) := by
  constructor
  · rfl
  · show ¬ ((2250 : ℚ) = min ((2250 : ℚ) * (3 / 2)) 5000)
    norm_num [min_def]

/-- Claim C3 as amended: at the end of every tick whose fetch succeeds and
whose callbacks all return normally, the interval is recomputed exactly as
claimed — base interval unconditionally when dynamic polling is off;
reset to base on activity and min(current x 1.5, max) growth on an empty
tick when it is on — while a tick whose fetch fails leaves the interval
unchanged; and consecutive empty successful ticks from 1000 produce the
claimed trajectory 1500, 2250, 3375, then 5000 capped. -/
theorem c3_interval_recomputation {O : Type} (cfg : ListenerConfig)
    (thr : O → ChatMessage → Bool) (obs : List O) (st : ListenerState)
    (msgs : List ChatMessage) (hnothrow : ∀ o m, thr o m = false) :
    ((pollTick cfg thr obs st (some msgs)).state.currentInterval
      = (if cfg.dynamicPolling then
          if 0 < (msgs.filter (fun m => !(st.seenMessages.contains m.id))).length
          then cfg.interval
          else min (st.currentInterval * (3 / 2)) cfg.maxInterval
        else cfg.interval)) ∧
    (pollTick cfg thr obs st none).state.currentInterval = st.currentInterval ∧
    (runPollState cfgDyn noThrow ([] : List Nat) ⟨[], 1000⟩
        (List.replicate 1 (some []))).currentInterval = 1500 ∧
    (runPollState cfgDyn noThrow ([] : List Nat) ⟨[], 1000⟩
        (List.replicate 2 (some []))).currentInterval = 2250 ∧
    (runPollState cfgDyn noThrow ([] : List Nat) ⟨[], 1000⟩
        (List.replicate 3 (some []))).currentInterval = 3375 ∧
    (runPollState cfgDyn noThrow ([] : List Nat) ⟨[], 1000⟩
        (List.replicate 4 (some []))).currentInterval = 5000 ∧
    (runPollState cfgDyn noThrow ([] : List Nat) ⟨[], 1000⟩
        (List.replicate 5 (some []))).currentInterval = 5000 := by
  refine ⟨pollTick_interval_of_noThrow cfg thr obs st msgs hnothrow, rfl, ?_, ?_, ?_, ?_, ?_⟩
  all_goals
    simp [runPollState, pollTick, deliverLoop, cfgDyn, List.replicate]
    norm_num [min_def]

/-- Witness for the amended claim C3, at the dynamic configuration with an
empty snapshot and an empty seen set. -/
theorem c3_interval_recomputation_witness :
    ((pollTick cfgDyn noThrow [0] (⟨[], 1000⟩ : ListenerState)
        (some ([] : List ChatMessage))).state.currentInterval
      = (if cfgDyn.dynamicPolling then
          if 0 < (([] : List ChatMessage).filter
              (fun m => !((⟨[], 1000⟩ : ListenerState).seenMessages.contains m.id))).length
          then cfgDyn.interval
          else min ((⟨[], 1000⟩ : ListenerState).currentInterval * (3 / 2)) cfgDyn.maxInterval
        else cfgDyn.interval)) ∧
    (pollTick cfgDyn noThrow [0] (⟨[], 1000⟩ : ListenerState) none).state.currentInterval
      = (⟨[], 1000⟩ : ListenerState).currentInterval ∧
    (runPollState cfgDyn noThrow ([] : List Nat) ⟨[], 1000⟩
        (List.replicate 1 (some []))).currentInterval = 1500 ∧
    (runPollState cfgDyn noThrow ([] : List Nat) ⟨[], 1000⟩
        (List.replicate 2 (some []))).currentInterval = 2250 ∧
    (runPollState cfgDyn noThrow ([] : List Nat) ⟨[], 1000⟩
        (List.replicate 3 (some []))).currentInterval = 3375 ∧
    (runPollState cfgDyn noThrow ([] : List Nat) ⟨[], 1000⟩
        (List.replicate 4 (some []))).currentInterval = 5000 ∧
    (runPollState cfgDyn noThrow ([] : List Nat) ⟨[], 1000⟩
        (List.replicate 5 (some []))).currentInterval = 5000 :=
  c3_interval_recomputation cfgDyn noThrow [0] ⟨[], 1000⟩ [] (fun _ _ => rfl)

/-- Claim C4 counterexample: with dynamic polling on, base 1000 and max
5000, a failed fetch reschedules at the unchanged interval 1000 — not at
min(1000 x 1.5, 5000) = 1500 as the claim (interval recomputed as if zero
new messages were found) requires. -/
theorem c4_failed_fetch_keeps_interval :
    (pollTick cfgDyn noThrow [0] ⟨[], 1000⟩ none).scheduledInterval = 1000 ∧
    ¬ ((pollTick cfgDyn noThrow [0] ⟨[], 1000⟩ none).scheduledInterval
        = min ((1000 : ℚ) * (3 / 2)) 5000) := by
  constructor
  · rfl
  · show ¬ ((1000 : ℚ) = min ((1000 : ℚ) * (3 / 2)) 5000)
    norm_num [min_def]

/-- Claim C4 as amended: a tick whose fetch fails logs the error once,
delivers nothing, leaves the listener state — seen ids and current
interval — untouched, does not stop the loop, and still schedules the
next tick; the delay used is the current interval left unchanged (the
recomputation is skipped), not the interval grown by the backoff rule. -/
theorem c4_failed_fetch_reports_and_reschedules {O : Type} [DecidableEq O]
    (cfg : ListenerConfig) (thr : O → ChatMessage → Bool) (s : GState O)
    (hin : s.inFlight ≠ 0) :
    (step cfg thr s (.complete none)).errorLog = s.errorLog + 1 ∧
    (step cfg thr s (.complete none)).lst.seenMessages = s.lst.seenMessages ∧
    (step cfg thr s (.complete none)).lst.currentInterval = s.lst.currentInterval ∧
    (step cfg thr s (.complete none)).deliveriesLog = s.deliveriesLog ∧
    (step cfg thr s (.complete none)).listening = s.listening ∧
    (step cfg thr s (.complete none)).pendingTimers
      = s.pendingTimers ++ [(s.nextTimer, s.lst.currentInterval)] := by
  simp [step, hin, pollTick]

/-- Witness for the amended claim C4, at the state reached by starting a
freshly constructed listener (one fetch in flight). -/
theorem c4_failed_fetch_witness :
    (step cfgStatic noThrow (run cfgStatic noThrow (initState Nat cfgStatic) [.start])
        (.complete none)).errorLog
      = (run cfgStatic noThrow (initState Nat cfgStatic) [.start]).errorLog + 1 ∧
    (step cfgStatic noThrow (run cfgStatic noThrow (initState Nat cfgStatic) [.start])
        (.complete none)).lst.seenMessages
      = (run cfgStatic noThrow (initState Nat cfgStatic) [.start]).lst.seenMessages ∧
    (step cfgStatic noThrow (run cfgStatic noThrow (initState Nat cfgStatic) [.start])
        (.complete none)).lst.currentInterval
      = (run cfgStatic noThrow (initState Nat cfgStatic) [.start]).lst.currentInterval ∧
    (step cfgStatic noThrow (run cfgStatic noThrow (initState Nat cfgStatic) [.start])
        (.complete none)).deliveriesLog
      = (run cfgStatic noThrow (initState Nat cfgStatic) [.start]).deliveriesLog ∧
    (step cfgStatic noThrow (run cfgStatic noThrow (initState Nat cfgStatic) [.start])
        (.complete none)).listening
      = (run cfgStatic noThrow (initState Nat cfgStatic) [.start]).listening ∧
    (step cfgStatic noThrow (run cfgStatic noThrow (initState Nat cfgStatic) [.start])
        (.complete none)).pendingTimers
      = (run cfgStatic noThrow (initState Nat cfgStatic) [.start]).pendingTimers
        ++ [((run cfgStatic noThrow (initState Nat cfgStatic) [.start]).nextTimer,
             (run cfgStatic noThrow (initState Nat cfgStatic) [.start]).lst.currentInterval)] :=
  c4_failed_fetch_reports_and_reschedules cfgStatic noThrow
    (run cfgStatic noThrow (initState Nat cfgStatic) [.start]) (by decide)

/-- Claim C5 counterexample: stop() while not Running is not a no-op. A
fetch in flight when stop() is called still completes and reschedules, so
a stopped listener can hold a pending zombie timer; a second stop() then
clears that timer, changing the state — and observably so: restarting and
letting the timer handle fire yields 2 total fetches after the extra
stop() but 3 without it (the zombie timer fires into a listening
listener and triggers an extra fetch). -/
theorem c5_stop_when_stopped_not_noop :
    (run cfgStatic noThrow (initState Nat cfgStatic)
        [.start, .stop, .complete (some [])]).listening = false ∧
    (step cfgStatic noThrow (run cfgStatic noThrow (initState Nat cfgStatic)
        [.start, .stop, .complete (some [])]) .stop).pendingTimers
      ≠ (run cfgStatic noThrow (initState Nat cfgStatic)
        [.start, .stop, .complete (some [])]).pendingTimers ∧
    (run cfgStatic noThrow (step cfgStatic noThrow (run cfgStatic noThrow
        (initState Nat cfgStatic) [.start, .stop, .complete (some [])]) .stop)
        [.start, .timerFire 1]).fetchCount = 2 ∧
    (run cfgStatic noThrow (run cfgStatic noThrow (initState Nat cfgStatic)
        [.start, .stop, .complete (some [])])
        [.start, .timerFire 1]).fetchCount = 3 := by
  decide

/-- Claim C5 as amended: start() while already Running is a strict no-op;
stop() while not Running leaves the flag, the listener state, the
callbacks, the in-flight count and the logs unchanged (though it may still
cancel a pending zombie timer, see the counterexample); and once the flag
is down, no trace without a further start() ever performs another
snapshot fetch. -/
theorem c5_idempotence_and_cancellation {O : Type} [DecidableEq O]
    (cfg : ListenerConfig) (thr : O → ChatMessage → Bool)
    (s t : GState O) (evs : List (Event O))
    (hs : s.listening = true) (ht : t.listening = false)
    (hevs : Event.start ∉ evs) :
    step cfg thr s .start = s ∧
    ((step cfg thr t .stop).listening = false ∧
     (step cfg thr t .stop).lst = t.lst ∧
     (step cfg thr t .stop).callbacks = t.callbacks ∧
     (step cfg thr t .stop).inFlight = t.inFlight ∧
     (step cfg thr t .stop).fetchCount = t.fetchCount ∧
     (step cfg thr t .stop).deliveriesLog = t.deliveriesLog) ∧
    (run cfg thr t evs).fetchCount = t.fetchCount := by
  refine ⟨by simp [step, hs], ⟨rfl, rfl, rfl, rfl, rfl, rfl⟩,
    (run_frozen_of_not_listening cfg thr evs t ht hevs).2⟩

/-- Witness for the amended claim C5: a started listener for the start
no-op part, a stopped one for the stop parts, and a start-free trace with
a timer fire, a completion and another stop for the no-further-fetch
part. -/
theorem c5_idempotence_witness :
    step cfgStatic noThrow (run cfgStatic noThrow (initState Nat cfgStatic) [.start]) .start
      = run cfgStatic noThrow (initState Nat cfgStatic) [.start] ∧
    ((step cfgStatic noThrow (run cfgStatic noThrow (initState Nat cfgStatic)
        [.start, .stop]) .stop).listening = false ∧
     (step cfgStatic noThrow (run cfgStatic noThrow (initState Nat cfgStatic)
        [.start, .stop]) .stop).lst
       = (run cfgStatic noThrow (initState Nat cfgStatic) [.start, .stop]).lst ∧
     (step cfgStatic noThrow (run cfgStatic noThrow (initState Nat cfgStatic)
        [.start, .stop]) .stop).callbacks
       = (run cfgStatic noThrow (initState Nat cfgStatic) [.start, .stop]).callbacks ∧
     (step cfgStatic noThrow (run cfgStatic noThrow (initState Nat cfgStatic)
        [.start, .stop]) .stop).inFlight
       = (run cfgStatic noThrow (initState Nat cfgStatic) [.start, .stop]).inFlight ∧
     (step cfgStatic noThrow (run cfgStatic noThrow (initState Nat cfgStatic)
        [.start, .stop]) .stop).fetchCount
       = (run cfgStatic noThrow (initState Nat cfgStatic) [.start, .stop]).fetchCount ∧
     (step cfgStatic noThrow (run cfgStatic noThrow (initState Nat cfgStatic)
        [.start, .stop]) .stop).deliveriesLog
       = (run cfgStatic noThrow (initState Nat cfgStatic) [.start, .stop]).deliveriesLog) ∧
    (run cfgStatic noThrow (run cfgStatic noThrow (initState Nat cfgStatic) [.start, .stop])
        [.timerFire 1, .complete (some [mkMsg "A"]), .stop]).fetchCount
      = (run cfgStatic noThrow (initState Nat cfgStatic) [.start, .stop]).fetchCount :=
  c5_idempotence_and_cancellation cfgStatic noThrow
    (run cfgStatic noThrow (initState Nat cfgStatic) [.start])
    (run cfgStatic noThrow (initState Nat cfgStatic) [.start, .stop])
    [.timerFire 1, .complete (some [mkMsg "A"]), .stop]
    (by decide) (by decide) (by decide)

/-- Claim C6 counterexample: the interleaving start(), stop(), start()
puts two fetches in flight at once — the second start() begins a new fetch
while the first cycle has neither delivered nor rescheduled — refuting the
claim that at most one cycle is in flight for every interleaving of
start(), stop() and tick completions. -/
theorem c6_overlap_via_stop_start :
    (run cfgStatic noThrow (initState Nat cfgStatic) [.start, .stop, .start]).inFlight = 2 ∧
    ¬ ((run cfgStatic noThrow (initState Nat cfgStatic) [.start, .stop, .start]).inFlight ≤ 1) := by
  decide

/-- Claim C6 as amended: under the quiescent call discipline — start() and
stop() invoked only while no fetch is in flight — at most one poll cycle
is in flight at any time, over every trace of timer fires and completions
from a freshly constructed listener. -/
theorem c6_single_flight {O : Type} [DecidableEq O] (cfg : ListenerConfig)
    (thr : O → ChatMessage → Bool) (evs : List (Event O))
    (h : guardedB cfg thr (initState O cfg) evs = true) :
    (run cfg thr (initState O cfg) evs).inFlight ≤ 1 := by
  have hI := flightInv_run cfg thr evs (initState O cfg) h (flightInv_initState cfg)
  exact le_trans (Nat.le_add_right _ _) hI.1

/-- Witness for the amended claim C6, on a guarded trace with a start, two
completions, a timer fire and a stop. -/
theorem c6_single_flight_witness :
    (run cfgStatic noThrow (initState Nat cfgStatic)
        [.start, .complete (some []), .timerFire 1, .complete none, .stop]).inFlight ≤ 1 :=
  c6_single_flight cfgStatic noThrow
    [.start, .complete (some []), .timerFire 1, .complete none, .stop] (by decide)

/-- Claim C7: an action whose parse throws, or whose parsed message has an
empty text, author or id, is excluded from the result of the snapshot
pipeline without affecting the surrounding entries: the pipeline output
over any prefix and suffix equals the output with the entry removed. The
pipeline itself is total — a discarded entry is never surfaced as a
snapshot-level error (the outer `catch` of `fetchChatMessages` only fires
before the per-action loop is reached). -/
theorem c7_bad_entry_excluded (pre post : List RawAction) (a : RawAction)
    (hbad : discardedAction a = true) :
    fetchMessagesOf (pre ++ a :: post) = fetchMessagesOf (pre ++ post) := by
  simp only [fetchMessagesOf, List.map_append, List.filterMap_append, List.map_cons,
    List.filterMap_cons]
  cases hpa : parseAction a with
  | error e => simp [Except.toOption]
  | ok m =>
      have hv : validateMessage m = false := by
        simp only [discardedAction, hpa, Bool.not_eq_true'] at hbad
        exact hbad
      simp [Except.toOption, hv]

/-- Witness for claim C7: an entry whose parsed author is empty, between
two well-formed entries, is dropped and the rest of the snapshot parses
as if it were absent. -/
theorem c7_bad_entry_excluded_witness :
    fetchMessagesOf ([RawAction.item (goodRenderer "A")]
        ++ RawAction.item emptyAuthorRenderer :: [RawAction.item (goodRenderer "B")])
      = fetchMessagesOf ([RawAction.item (goodRenderer "A")]
        ++ [RawAction.item (goodRenderer "B")]) :=
  c7_bad_entry_excluded [RawAction.item (goodRenderer "A")]
    [RawAction.item (goodRenderer "B")] (RawAction.item emptyAuthorRenderer) (by decide)

/-- Claim C8: the dedup filter of a tick is computed against the seen set
as it stood before any insertion of that tick, so two entries of one
snapshot sharing a fresh id both pass it; and (when no callback throws)
the invocations of the tick are exactly one per callback per filtered
entry — so each callback is notified once per entry, twice for that id. -/
theorem c8_intra_tick_duplicate_delivery {O : Type} (cfg : ListenerConfig)
    (thr : O → ChatMessage → Bool) (obs : List O) (st : ListenerState)
    (pre mid post : List ChatMessage) (m1 m2 : ChatMessage)
    (hid : m2.id = m1.id) (hfresh : st.seenMessages.contains m1.id = false)
    (hnothrow : ∀ o m, thr o m = false) :
    m1 ∈ (pre ++ m1 :: mid ++ m2 :: post).filter (fun m => !(st.seenMessages.contains m.id)) ∧
    m2 ∈ (pre ++ m1 :: mid ++ m2 :: post).filter (fun m => !(st.seenMessages.contains m.id)) ∧
    (pollTick cfg thr obs st (some (pre ++ m1 :: mid ++ m2 :: post))).deliveries
      = ((pre ++ m1 :: mid ++ m2 :: post).filter
          (fun m => !(st.seenMessages.contains m.id))).flatMap
          (fun m => obs.map (fun o => (o, m))) := by
  have hnm1 : m1.id ∉ st.seenMessages := by simpa using hfresh
  refine ⟨?_, ?_, pollTick_deliveries_of_noThrow cfg thr obs st _ hnothrow⟩
  · simp [List.mem_filter, hnm1]
  · simp [List.mem_filter, hid, hnm1]

/-- Witness for claim C8: a snapshot consisting of exactly two distinct
entries with the same fresh id A, two callbacks, empty seen set. -/
theorem c8_intra_tick_duplicate_delivery_witness :
    mkMsg "A" ∈ (([] : List ChatMessage) ++ mkMsg "A" :: ([] : List ChatMessage)
        ++ mkMsgT "other" "A" :: ([] : List ChatMessage)).filter
        (fun m => !((⟨[], 1000⟩ : ListenerState).seenMessages.contains m.id)) ∧
    mkMsgT "other" "A" ∈ (([] : List ChatMessage) ++ mkMsg "A" :: ([] : List ChatMessage)
        ++ mkMsgT "other" "A" :: ([] : List ChatMessage)).filter
        (fun m => !((⟨[], 1000⟩ : ListenerState).seenMessages.contains m.id)) ∧
    (pollTick cfgStatic noThrow [0, 1] ⟨[], 1000⟩
        (some (([] : List ChatMessage) ++ mkMsg "A" :: ([] : List ChatMessage)
          ++ mkMsgT "other" "A" :: ([] : List ChatMessage)))).deliveries
      = ((([] : List ChatMessage) ++ mkMsg "A" :: ([] : List ChatMessage)
          ++ mkMsgT "other" "A" :: ([] : List ChatMessage)).filter
          (fun m => !((⟨[], 1000⟩ : ListenerState).seenMessages.contains m.id))).flatMap
          (fun m => [0, 1].map (fun o => (o, m))) :=
  c8_intra_tick_duplicate_delivery cfgStatic noThrow [0, 1] ⟨[], 1000⟩ [] [] []
    (mkMsg "A") (mkMsgT "other" "A") rfl (by decide) (fun _ _ => rfl)

/-- Claim C9: stop() and start() leave the seen-id set, the current
interval and the callback registry untouched — stop() changes only the
flag and the pending timer, start() additionally begins a fetch — and an
id already recorded as seen stays suppressed across a stop()/start()
pair: a subsequent tick fetching a message with that id delivers
nothing. -/
theorem c9_listener_state_survives_restart {O : Type} [DecidableEq O]
    (cfg : ListenerConfig) (thr : O → ChatMessage → Bool) (s : GState O)
    (m : ChatMessage) (hseen : m.id ∈ s.lst.seenMessages) :
    ((step cfg thr s .stop).lst = s.lst ∧ (step cfg thr s .stop).callbacks = s.callbacks) ∧
    (∀ u : GState O, (step cfg thr u .start).lst = u.lst ∧
      (step cfg thr u .start).callbacks = u.callbacks) ∧
    (run cfg thr s [.stop, .start, .complete (some [m])]).lst.seenMessages
      = s.lst.seenMessages ∧
    (run cfg thr s [.stop, .start, .complete (some [m])]).deliveriesLog
      = s.deliveriesLog := by
  have hstart : ∀ u : GState O, (step cfg thr u .start).lst = u.lst ∧
      (step cfg thr u .start).callbacks = u.callbacks := by
    intro u
    simp only [step]
    split
    · exact ⟨rfl, rfl⟩
    · refine ⟨?_, ?_⟩ <;> (simp only [pollEntry]; split <;> rfl)
  refine ⟨⟨rfl, rfl⟩, hstart, ?_⟩
  have htick : ∀ cbs : List O,
      (pollTick cfg thr cbs s.lst (some [m])).state.seenMessages = s.lst.seenMessages ∧
      (pollTick cfg thr cbs s.lst (some [m])).deliveries = [] := by
    intro cbs
    simp [pollTick, deliverLoop, List.filter_cons, hseen]
  constructor
  · simp [run, step, pollEntry, (htick _).1]
  · simp [run, step, pollEntry, (htick _).2]

/-- Witness for claim C9: a listening listener that has already seen id A
and has one registered callback; the restart tick fetches A again and
delivers nothing. -/
theorem c9_listener_state_survives_restart_witness :
    ((step cfgStatic noThrow (⟨true, none, [], 1, 0, 0, ⟨["A"], 1000⟩, [7], [], 0⟩ : GState Nat)
        .stop).lst = (⟨["A"], 1000⟩ : ListenerState) ∧
     (step cfgStatic noThrow (⟨true, none, [], 1, 0, 0, ⟨["A"], 1000⟩, [7], [], 0⟩ : GState Nat)
        .stop).callbacks = [7]) ∧
    (∀ u : GState Nat, (step cfgStatic noThrow u .start).lst = u.lst ∧
      (step cfgStatic noThrow u .start).callbacks = u.callbacks) ∧
    (run cfgStatic noThrow (⟨true, none, [], 1, 0, 0, ⟨["A"], 1000⟩, [7], [], 0⟩ : GState Nat)
        [.stop, .start, .complete (some [mkMsg "A"])]).lst.seenMessages = ["A"] ∧
    (run cfgStatic noThrow (⟨true, none, [], 1, 0, 0, ⟨["A"], 1000⟩, [7], [], 0⟩ : GState Nat)
        [.stop, .start, .complete (some [mkMsg "A"])]).deliveriesLog = [] :=
  c9_listener_state_survives_restart cfgStatic noThrow
    ⟨true, none, [], 1, 0, 0, ⟨["A"], 1000⟩, [7], [], 0⟩ (mkMsg "A") (by decide)

/-- Claim C10: the exported pipeline (over `parseAction`) and the legacy
inline pipeline return equal message sequences on every snapshot whose
items all carry `authorBadges`; and they are not equivalent in general —
on an item lacking `authorBadges`, `parseAction` yields the message with
an empty badge list while the legacy parser throws on the `.map` of
`undefined` and the item is discarded. -/
theorem c10_parser_refinement :
    (∀ acts : List RawAction, acts.all hasBadges = true →
        fetchMessagesOf acts = fetchMessagesLegacyOf acts) ∧
    (fetchMessagesOf [RawAction.item badgelessRenderer]).map (fun m => m.badges) = [[]] ∧
    fetchMessagesLegacyOf [RawAction.item badgelessRenderer] = [] := by
  refine ⟨fetchMessagesOf_eq_legacy, by decide, by decide⟩

/-- Witness for claim C10: the two pipelines agree on a snapshot with one
badge-carrying item. -/
theorem c10_parser_refinement_witness :
    fetchMessagesOf [RawAction.item (goodRenderer "A")]
      = fetchMessagesLegacyOf [RawAction.item (goodRenderer "A")] :=
  c10_parser_refinement.1 [RawAction.item (goodRenderer "A")] (by decide)

end YoutubeChat
